import Mathlib

/-!
Verification of the ClipMind indexing and retrieval engine against its
specification.  The Python sources under `app/` are shallowly embedded:
vectors become `List ℚ`, FAISS `IndexFlatL2` search becomes exact
nearest-neighbour search by squared Euclidean distance over the stored
vector list, database rows become a `List Item`, and the external
encoders (SentenceTransformer, CLIP) become function parameters.
-/

namespace ClipMind

/-- Embedding of `app/db/models.py`, class `Item`: one captured content row.
`id` is the store-assigned primary key (kept as `Int` so it compares
directly with the `-1` sentinel the index layer uses for empty slots). -/
structure Item where
  id : Int
  text : String
  contentHash : String
  source : String
  blobUri : Option String
  createdTs : Int
deriving DecidableEq, Repr

/-- Squared Euclidean (L2) distance between two vectors, the metric of
`faiss.IndexFlatL2` used by both spaces in `vector_store.py`. -/
def sqDist (v w : List ℚ) : ℚ :=
  ((v.zip w).map fun p => (p.1 - p.2) ^ 2).sum

/-- Stable sort ascending by `key`; embeds both the FAISS
ascending-distance result order and `results.sort(key=lambda x: x[1])`
in `semantic_search.py` (Python `list.sort` is stable, as is insertion
sort with a non-strict comparison). -/
def sortK {α : Type} (key : α → ℚ) (l : List α) : List α :=
  l.insertionSort fun a b => key a ≤ key b

/-- Sentinel distance FAISS reports for padding slots when fewer than `k`
vectors exist; callers never read it because the paired id is `-1`. -/
def padDist : ℚ := (2 : ℚ) ^ 128

/-- Embedding of `index.search(q, k)` on a FAISS `IndexFlatL2` holding
`vecs`: the `k` nearest stored vectors as `(squared distance, position)`
pairs ascending by distance, padded with `(padDist, -1)` when the index
holds fewer than `k` vectors. -/
def faissTop (vecs : List (List ℚ)) (q : List ℚ) (k : Nat) : List (ℚ × Int) :=
  let scored := vecs.enum.map fun iv => (sqDist q iv.2, (iv.1 : Int))
  let sorted := sortK (fun p => p.1) scored
  sorted.take k ++ List.replicate (k - sorted.length) (padDist, -1)

/-- Embedding of `DualVectorStore.search_text` (`vector_store.py` lines
86-104) generalised over the space searched: FAISS search followed by the
position-to-item-id mapping, which yields `-1` for any position outside
`0 <= pos < len(id_map)`.  Returns `(distance, item_id)` pairs, the
exact zip `zip(item_ids, distances[0])` made by the callers. -/
def searchSpace (vecs : List (List ℚ)) (idMap : List Int) (q : List ℚ)
    (k : Nat) : List (ℚ × Int) :=
  (faissTop vecs q k).map fun p =>
    (p.1, if p.2 < 0 then -1 else idMap.getD p.2.toNat (-1))

/-- Embedding of the in-memory state of `DualVectorStore`
(`vector_store.py`): per space, the stored vectors (so `ntotal` is the
list length) and the append-only position-to-item-id map. -/
structure DualVectorStore where
  textVecs : List (List ℚ)
  textIdMap : List Int
  imageVecs : List (List ℚ)
  imageIdMap : List Int
deriving DecidableEq, Repr

/-- Method names defined by `class DualVectorStore` in
`app/index/vector_store.py`; attribute access on any other name raises
`AttributeError` in Python. -/
def dualVectorStoreMethods : List String :=
  ["__init__", "_load_or_create_indexes", "add_text_vector",
   "add_image_vector", "search_text", "save", "get_stats"]

/-- Embedding of `check_near_duplicates` (`app/ingest/main.py` lines
79-107): query the text space for the single nearest neighbour of the
encoded text; reject when its squared L2 distance is strictly below the
hard-coded `0.3`, reporting `1 - distance/10` as the similarity.  The
`similarity_threshold` parameter is declared (default `0.95`) but never
read in the body. -/
def check_near_duplicates (encode : String → List ℚ) (store : DualVectorStore)
    (text : String) (similarityThreshold : ℚ) : Option (Int × ℚ) :=
  if store.textVecs.length = 0 then none
  else
    let v := encode text
    match searchSpace store.textVecs store.textIdMap v 1 with
    | [] => none
    | (d, i) :: _ =>
      if i = -1 then none
      else if d < 3 / 10 then some (i, 1 - d / 10) else none

/-- Characters Python's `str.strip()` removes (the `str.isspace` set,
restricted to the code points that occur in practice; ASCII whitespace
plus the common Unicode spaces). -/
def pyIsSpace (c : Char) : Bool :=
  c == ' ' || c == '\t' || c == '\n' || c == '\r' ||
  c == '\x0b' || c == '\x0c' || c == '\u0085' || c == ' ' ||
  c == ' ' || c == ' ' || c == '　'

/-- Embedding of Python `text.strip()`: drop leading and trailing
whitespace characters. -/
def pyStrip (s : String) : String :=
  ⟨((s.data.dropWhile pyIsSpace).reverse.dropWhile pyIsSpace).reverse⟩

/-- Embedding of Python `len(set(s)) == 1` on a string `s`: `s` is
non-empty and all its characters are equal. -/
def setSize1 (s : String) : Bool :=
  match s.data with
  | [] => false
  | c :: rest => rest.all (· == c)

/-- Embedding of Python `c.isalnum()` (ASCII fragment; every character the
junk rules are exercised on is either ASCII or an emoji, and emoji are
not alphanumeric in Python either). -/
def pyIsAlnum (c : Char) : Bool := c.isAlphanum

/-- Substring test on character lists: does `needle` start `hay`? -/
def listStartsWith : List Char → List Char → Bool
  | _, [] => true
  | [], _ :: _ => false
  | h :: hs, n :: ns => h == n && listStartsWith hs ns

/-- Embedding of Python `needle in hay` on strings: `needle` occurs as a
contiguous substring of `hay`. -/
def listHasSub : List Char → List Char → Bool
  | [], needle => needle.isEmpty
  | h :: rest, needle => listStartsWith (h :: rest) needle || listHasSub rest needle

/-- String version of `listHasSub`, applied to lowercased text. -/
def hasSub (hay needle : String) : Bool := listHasSub hay.data needle.data

/-- Embedding of Python `text.lower()` (ASCII fragment, matching the
ASCII-only boilerplate patterns it is compared against). -/
def pyLower (s : String) : String := ⟨s.data.map Char.toLower⟩

/-- The `junk_patterns` list from `is_junk` (`app/ingest/main.py` lines
44-49). -/
def junk_patterns : List String :=
  ["copied to clipboard", "copy successful", "ctrl+c", "cmd+c"]

/-- Embedding of `is_junk` (`app/ingest/main.py` lines 21-54): the five
sequential junk rules.  Note rule 3 tests `len(set(text.strip())) == 1`,
i.e. it looks at the whitespace-stripped text. -/
def is_junk (text : String) : Bool :=
  if text.length < 5 then true
  else if pyStrip text == "" then true
  else if setSize1 (pyStrip text) then true
  else if !(text.data.any pyIsAlnum) then true
  else if junk_patterns.any (fun p => hasSub (pyLower text) p) then true
  else false

/-- Formalisation of the claimed junk rule set read literally from the
spec sentence: rule 3 is stated there as "all characters are the same
single character" on the text itself, not on its stripped form. -/
def isJunkSpecLiteral (text : String) : Bool :=
  decide (text.length < 5) || (pyStrip text == "") || setSize1 text ||
  !(text.data.any pyIsAlnum) ||
  junk_patterns.any (fun p => hasSub (pyLower text) p)

/-- The junk rule set with rule 3 amended to apply to the
whitespace-stripped text, as the code does. -/
def isJunkSpecAmended (text : String) : Bool :=
  decide (text.length < 5) || (pyStrip text == "") || setSize1 (pyStrip text) ||
  !(text.data.any pyIsAlnum) ||
  junk_patterns.any (fun p => hasSub (pyLower text) p)

/-- Embedding of the eligible-id-set resolution in `semantic_search`
(`app/search/semantic_search.py` lines 49-59): the distinct ids of the
database rows with `created_ts >= after_timestamp` (when given) and
`source == source_filter` (when given).  `eraseDups` mirrors building a
Python `set` (membership, cardinality and emptiness agree). -/
def eligibleIds (db : List Item) (sourceFilter : Option String)
    (afterTimestamp : Option Int) : List Int :=
  ((db.filter fun it =>
      (match afterTimestamp with
       | some t => decide (t ≤ it.createdTs)
       | none => true) &&
      (match sourceFilter with
       | some s => it.source == s
       | none => true)).map fun it => it.id).eraseDups

/-- The `valid_item_ids` local of `semantic_search`: `none` when no
filter is active, otherwise the eligible id set. -/
def semantic_search_valid_ids (db : List Item) (sourceFilter : Option String)
    (afterTimestamp : Option Int) : Option (List Int) :=
  if afterTimestamp.isSome || sourceFilter.isSome then
    some (eligibleIds db sourceFilter afterTimestamp)
  else none

/-- Embedding of the candidate search depth computed in
`semantic_search` (lines 72-77 for the text space, 103-108 for the image
space): `min(len(valid_item_ids) * 2, ntotal, 500)` raised to at least
`top_k * 10` when a filter is active, else `top_k * 2`. -/
def searchK (validCount : Option Nat) (ntotal : Nat) (topK : Nat) : Nat :=
  match validCount with
  | some c => max (min (min (2 * c) ntotal) 500) (topK * 10)
  | none => topK * 2

/-- Embedding of `session.get(Item, item_id)`: primary-key lookup in the
record store. -/
def dbGet (db : List Item) (i : Int) : Option Item :=
  db.find? fun it => it.id == i

/-- Embedding of the text-space candidate loop of `semantic_search`
(lines 67-94): guard on a non-empty index, encode the query, search at
the computed depth, then drop `-1` slots, drop ids outside the eligible
set when filtering, and drop ids that no longer resolve in the record
store; survivors are tagged `"text"`. -/
def semantic_search_text_candidates (encodeText : String → List ℚ)
    (db : List Item) (store : DualVectorStore) (queryText : String)
    (topK : Nat) (mode : String) (sourceFilter : Option String)
    (afterTimestamp : Option Int) : List (Item × ℚ × String) :=
  let validIds := semantic_search_valid_ids db sourceFilter afterTimestamp
  if mode == "all" || mode == "text" then
    if store.textVecs.length > 0 then
      let qv := encodeText queryText
      let sk := searchK (validIds.map List.length) store.textVecs.length topK
      (searchSpace store.textVecs store.textIdMap qv sk).filterMap fun p =>
        if p.2 = -1 then none
        else if (match validIds with
                 | some v => !(v.contains p.2)
                 | none => false) then none
        else match dbGet db p.2 with
          | some item => some (item, p.1, "text")
          | none => none
    else []
  else []

/-- Embedding of the deduplication loop of `semantic_search` (lines
131-136): walk the sorted candidates keeping the first (hence
lowest-distance) occurrence of each item id, dropping the modality tag. -/
def dedupBySeen : List Int → List (Item × ℚ × String) → List (Item × ℚ)
  | _, [] => []
  | seen, c :: rest =>
    if c.1.id ∈ seen then dedupBySeen seen rest
    else (c.1, c.2.1) :: dedupBySeen (c.1.id :: seen) rest

/-- Embedding of the merge step of `semantic_search` (lines 127-138):
sort all surviving candidates ascending by distance, deduplicate by item
id over the entire sorted list, then truncate to `top_k`. -/
def mergeCandidates (cands : List (Item × ℚ × String)) (topK : Nat) :
    List (Item × ℚ) :=
  (dedupBySeen [] (sortK (fun c => c.2.1) cands)).take topK

/-- Errors a `semantic_search` call can raise. -/
inductive PyError where
  /-- Python `AttributeError`: `DualVectorStore` object has no attribute
  `search_image` (raised at `semantic_search.py` line 110, because
  `vector_store.py` defines no such method). -/
  | attributeErrorSearchImage
deriving DecidableEq, Repr

/-- Embedding of `semantic_search` (`app/search/semantic_search.py` lines
20-138).  Filters are resolved from the record store first and an empty
eligible set returns `[]` before any index is touched.  The text branch
contributes `semantic_search_text_candidates`.  The image branch, when
active (`mode` in `["all", "images"]`) and the image index is non-empty,
evaluates `store.search_image(...)` — an attribute `DualVectorStore`
does not define — so the call raises `AttributeError` there.  Otherwise
the candidates are sorted, deduplicated and truncated. -/
def semantic_search (encodeText : String → List ℚ) (db : List Item)
    (store : DualVectorStore) (queryText : String) (topK : Nat)
    (mode : String) (sourceFilter : Option String)
    (afterTimestamp : Option Int) : Except PyError (List (Item × ℚ)) :=
  if semantic_search_valid_ids db sourceFilter afterTimestamp = some [] then
    Except.ok []
  else if (mode == "all" || mode == "images")
      && store.imageVecs.length > 0 then
    Except.error PyError.attributeErrorSearchImage
  else
    Except.ok (mergeCandidates
      (semantic_search_text_candidates encodeText db store queryText topK
        mode sourceFilter afterTimestamp) topK)

/-- Embedding of `check_exact_duplicate` (`app/ingest/main.py` lines
63-76): first record-store row whose `content_hash` equals the candidate
hash, returning its id. -/
def check_exact_duplicate (db : List Item) (textHash : String) : Option Int :=
  (db.find? fun it => it.contentHash == textHash).map fun it => it.id

/-- The per-item decision of the ingestion pipeline, matching the
`DedupDecision` variants of the spec's data model. -/
inductive DedupDecision where
  | accept (newId : Int)
  | rejectExactDuplicate (existingId : Int)
  | rejectNearDuplicate (existingId : Int) (similarity : ℚ)
  | rejectJunk
deriving DecidableEq, Repr

/-- State threaded through clipboard ingestion: the record store, the
next primary key SQLite will assign, and the in-memory dual vector
store. -/
structure IngestState where
  db : List Item
  nextId : Int
  store : DualVectorStore
deriving DecidableEq, Repr

/-- Embedding of `DualVectorStore.add_text_vector` (`vector_store.py`
lines 62-72): append the vector to the text index and the item id to the
text id map. -/
def add_text_vector (store : DualVectorStore) (itemId : Int)
    (vector : List ℚ) : DualVectorStore :=
  { store with textVecs := store.textVecs ++ [vector],
               textIdMap := store.textIdMap ++ [itemId] }

/-- Embedding of one iteration of the `watch_clipboard` loop body for a
newly captured text (`app/ingest/main.py` lines 159-207): junk filter
first, then hash + exact-duplicate lookup, then near-duplicate check
with `similarity_threshold=0.95`, and only then insertion into the
record store followed by encoding and indexing.  `hash` stands for
`compute_hash` (xxhash64) and `now` for the row's `created_ts`
default. -/
def watch_clipboard_step (hash : String → String)
    (encode : String → List ℚ) (now : Int) (st : IngestState)
    (text : String) : DedupDecision × IngestState :=
  if is_junk text then (DedupDecision.rejectJunk, st)
  else
    let contentHash := hash text
    match check_exact_duplicate st.db contentHash with
    | some existingId => (DedupDecision.rejectExactDuplicate existingId, st)
    | none =>
      match check_near_duplicates encode st.store text (95 / 100) with
      | some (dupeId, similarity) =>
        (DedupDecision.rejectNearDuplicate dupeId similarity, st)
      | none =>
        let newItem : Item :=
          { id := st.nextId, text := text, contentHash := contentHash,
            source := "clipboard", blobUri := none, createdTs := now }
        let vector := encode text
        (DedupDecision.accept st.nextId,
         { db := st.db ++ [newItem], nextId := st.nextId + 1,
           store := add_text_vector st.store st.nextId vector })

/-- On-disk state of one persisted vector space: the dimension recorded
in the FAISS index file (`index.d`) and the saved id map. -/
structure OnDiskIndex where
  d : Nat
  idMap : List Int
deriving DecidableEq, Repr

/-- Load-time failures. -/
inductive LoadError where
  /-- The `ValueError` raised by `IndexStore` when the stored dimension
  disagrees with the configured one. -/
  | dimensionMismatch (stored : Nat) (expected : Nat)
deriving DecidableEq, Repr

/-- Embedding of `IndexStore._load_from_disk_or_start_fresh`
(`app/index/store.py` lines 42-71): load the files when present and
raise `ValueError` if `index.d` differs from the configured dimension,
else create an empty index of the configured dimension.  Returns the
dimension of the in-memory index on success. -/
def indexStore_load (onDisk : Option OnDiskIndex) (configuredDim : Nat) :
    Except LoadError Nat :=
  match onDisk with
  | some disk =>
    if disk.d ≠ configuredDim then
      Except.error (LoadError.dimensionMismatch disk.d configuredDim)
    else Except.ok disk.d
  | none => Except.ok configuredDim

/-- Embedding of one space of `DualVectorStore._load_or_create_indexes`
(`app/index/vector_store.py` lines 44-60): `faiss.read_index` when the
files exist — with no dimension check of any kind — else a fresh
`IndexFlatL2` of the configured dimension.  Returns the dimension of the
in-memory index. -/
def dualVectorStore_load (onDisk : Option OnDiskIndex)
    (configuredDim : Nat) : Except LoadError Nat :=
  match onDisk with
  | some disk => Except.ok disk.d
  | none => Except.ok configuredDim

/-! Concrete states reused by the witnesses below. -/

/-- A three-row record store with creation timestamps 100, 200, 300 (the
filter example of the spec's testable properties). -/
def exampleDb : List Item :=
  [{ id := 1, text := "alpha", contentHash := "h1", source := "clipboard",
     blobUri := none, createdTs := 100 },
   { id := 2, text := "beta", contentHash := "h2", source := "clipboard",
     blobUri := none, createdTs := 200 },
   { id := 3, text := "gamma", contentHash := "h3", source := "clipboard",
     blobUri := none, createdTs := 300 }]

/-- A store holding one text vector `[0]` mapped to item 7 and an empty
image space. -/
def exampleStore : DualVectorStore :=
  { textVecs := [[0]], textIdMap := [7], imageVecs := [], imageIdMap := [] }

/-- Ingestion state pairing `exampleDb` with `exampleStore`. -/
def exampleIngest : IngestState :=
  { db := exampleDb, nextId := 4, store := exampleStore }

/-- A store holding three text vectors mapped to items 1, 2, 3 (stored
in a non-sorted distance order relative to the probe query `[0]`). -/
def exampleStore2 : DualVectorStore :=
  { textVecs := [[0], [2], [1]], textIdMap := [1, 2, 3],
    imageVecs := [], imageIdMap := [] }

/-- The ranked page returned for query encoding `[0]`, `k = 2` over
`exampleDb` and `exampleStore2`: items 1 and 3 at distances 0 and 1. -/
def exampleResult : List (Item × ℚ) :=
  [({ id := 1, text := "alpha", contentHash := "h1", source := "clipboard",
      blobUri := none, createdTs := 100 }, 0),
   ({ id := 3, text := "gamma", contentHash := "h3", source := "clipboard",
      blobUri := none, createdTs := 300 }, 1)]

/-! Helper lemmas about the sort, deduplication and merge steps. -/

theorem sortK_perm {α : Type} (key : α → ℚ) (l : List α) :
    List.Perm (sortK key l) l :=
  List.perm_insertionSort _ l

theorem sortK_pairwise {α : Type} (key : α → ℚ) (l : List α) :
    (sortK key l).Pairwise fun a b => key a ≤ key b := by
  haveI : IsTotal α fun a b => key a ≤ key b := ⟨fun a b => le_total _ _⟩
  haveI : IsTrans α fun a b => key a ≤ key b :=
    ⟨fun _ _ _ h₁ h₂ => le_trans h₁ h₂⟩
  exact List.sorted_insertionSort _ l

theorem dedupBySeen_not_mem (l : List (Item × ℚ × String)) :
    ∀ (seen : List Int), ∀ x ∈ dedupBySeen seen l, x.1.id ∉ seen := by
  induction l with
  | nil => intro seen x hx; simp [dedupBySeen] at hx
  | cons a rest ih =>
    intro seen x hx
    by_cases hmem : a.1.id ∈ seen
    · rw [dedupBySeen, if_pos hmem] at hx
      exact ih seen x hx
    · rw [dedupBySeen, if_neg hmem] at hx
      rcases List.mem_cons.mp hx with h | h
      · rw [h]; exact hmem
      · intro hs
        exact ih (a.1.id :: seen) x h (List.mem_cons_of_mem _ hs)

theorem dedupBySeen_sublist (l : List (Item × ℚ × String)) :
    ∀ seen : List Int,
      List.Sublist (dedupBySeen seen l) (l.map fun c => (c.1, c.2.1)) := by
  induction l with
  | nil => intro seen; simp [dedupBySeen]
  | cons a rest ih =>
    intro seen
    rw [dedupBySeen, List.map_cons]
    by_cases hmem : a.1.id ∈ seen
    · rw [if_pos hmem]; exact (ih seen).cons _
    · rw [if_neg hmem]; exact (ih _).cons₂ _

theorem dedupBySeen_nodup (l : List (Item × ℚ × String)) :
    ∀ seen : List Int,
      ((dedupBySeen seen l).map fun x => x.1.id).Nodup := by
  induction l with
  | nil => intro seen; simp [dedupBySeen]
  | cons a rest ih =>
    intro seen
    by_cases hmem : a.1.id ∈ seen
    · rw [dedupBySeen, if_pos hmem]; exact ih seen
    · rw [dedupBySeen, if_neg hmem]
      simp only [List.map_cons, List.nodup_cons]
      refine ⟨fun hin => ?_, ih _⟩
      rcases List.mem_map.mp hin with ⟨x, hx, hid⟩
      exact dedupBySeen_not_mem rest _ x hx (hid ▸ List.mem_cons_self _ _)

theorem dedupBySeen_min (l : List (Item × ℚ × String))
    (hs : l.Pairwise fun a b => a.2.1 ≤ b.2.1) :
    ∀ seen : List Int, ∀ x ∈ dedupBySeen seen l, ∀ c ∈ l,
      c.1.id = x.1.id → x.2 ≤ c.2.1 := by
  induction l with
  | nil => intro seen x hx; simp [dedupBySeen] at hx
  | cons a rest ih =>
    have hhead := List.pairwise_cons.mp hs
    intro seen x hx c hc hid
    by_cases hmem : a.1.id ∈ seen
    · rw [dedupBySeen, if_pos hmem] at hx
      rcases List.mem_cons.mp hc with hca | hc'
      · have hxs := dedupBySeen_not_mem rest seen x hx
        exact absurd (hid ▸ hca ▸ hmem) hxs
      · exact ih hhead.2 seen x hx c hc' hid
    · rw [dedupBySeen, if_neg hmem] at hx
      rcases List.mem_cons.mp hx with hxa | hx'
      · rcases List.mem_cons.mp hc with hca | hc'
        · rw [hxa, hca]
        · rw [hxa]; exact hhead.1 c hc'
      · rcases List.mem_cons.mp hc with hca | hc'
        · have hxs := dedupBySeen_not_mem rest _ x hx'
          refine absurd ?_ hxs
          rw [← hid, hca]
          exact List.mem_cons_self _ _
        · exact ih hhead.2 _ x hx' c hc' hid

theorem mergeCandidates_props (cands : List (Item × ℚ × String))
    (topK : Nat) :
    (mergeCandidates cands topK).length ≤ topK
    ∧ (mergeCandidates cands topK).Pairwise (fun a b => a.2 ≤ b.2)
    ∧ ((mergeCandidates cands topK).map fun x => x.1.id).Nodup
    ∧ (∀ x ∈ mergeCandidates cands topK, ∀ c ∈ cands,
         c.1.id = x.1.id → x.2 ≤ c.2.1)
    ∧ (∀ x ∈ mergeCandidates cands topK, ∃ c ∈ cands,
         c.1 = x.1 ∧ c.2.1 = x.2) := by
  have hperm : List.Perm (sortK (fun c => c.2.1) cands) cands :=
    sortK_perm _ _
  have hpair : (sortK (fun c => c.2.1) cands).Pairwise
      (fun a b => a.2.1 ≤ b.2.1) := sortK_pairwise _ _
  have hsub : List.Sublist (dedupBySeen [] (sortK (fun c => c.2.1) cands))
      ((sortK (fun c => c.2.1) cands).map fun c => (c.1, c.2.1)) :=
    dedupBySeen_sublist _ []
  have htake : List.Sublist (mergeCandidates cands topK)
      (dedupBySeen [] (sortK (fun c => c.2.1) cands)) :=
    List.take_sublist _ _
  refine ⟨List.length_take_le _ _, ?_, ?_, ?_, ?_⟩
  · have hmap : ((sortK (fun c => c.2.1) cands).map
        fun c => (c.1, c.2.1)).Pairwise (fun a b => a.2 ≤ b.2) :=
      (List.pairwise_map).mpr hpair
    exact hmap.sublist (htake.trans hsub)
  · exact (dedupBySeen_nodup _ []).sublist (htake.map _)
  · intro x hx c hc hid
    exact dedupBySeen_min _ hpair [] x (htake.subset hx) c
      (hperm.mem_iff.mpr hc) hid
  · intro x hx
    have hx' : x ∈ ((sortK (fun c => c.2.1) cands).map
        fun c => (c.1, c.2.1)) := hsub.subset (htake.subset hx)
    rcases List.mem_map.mp hx' with ⟨c, hc, hcx⟩
    exact ⟨c, hperm.mem_iff.mp hc, congrArg Prod.fst hcx,
      congrArg Prod.snd hcx⟩

/-! Claim theorems. -/

/-- C1: the claim says a search with mode `"all"` or `"images"` and a
non-empty image index completes, retrieving image-space candidates.  The
code refutes this: `class DualVectorStore` defines no `search_image`
method, so `semantic_search` raises `AttributeError` at the
`store.search_image(...)` call whenever the image branch is reached with
a non-empty image index.  Evaluated here at a store holding one image
vector: both modes error instead of completing. -/
theorem C1_search_image_attribute_error :
    dualVectorStoreMethods.contains "search_image" = false
    ∧ semantic_search (fun _ => [0])
        [] { textVecs := [], textIdMap := [],
             imageVecs := [[1]], imageIdMap := [5] } "q" 5 "images" none none
        = Except.error PyError.attributeErrorSearchImage
    ∧ semantic_search (fun _ => [0])
        [] { textVecs := [], textIdMap := [],
             imageVecs := [[1]], imageIdMap := [5] } "q" 5 "all" none none
        = Except.error PyError.attributeErrorSearchImage :=
  ⟨by decide, rfl, rfl⟩

/-- C2: the claim says every load of a vector space whose backing files
exist fails on a stored-dimension mismatch.  The archived
`IndexStore._load_from_disk_or_start_fresh` does raise (second
conjunct), but the live `DualVectorStore._load_or_create_indexes` loads
the mismatched index silently, with no dimension check at all (first and
third conjuncts): a text index persisted with dimension 512 loads
without error against the configured dimension 384. -/
theorem C2_load_dimension_check :
    dualVectorStore_load (some { d := 512, idMap := [] }) 384
      = Except.ok 512
    ∧ indexStore_load (some { d := 512, idMap := [] }) 384
      = Except.error (LoadError.dimensionMismatch 512 384)
    ∧ ∀ (disk : OnDiskIndex) (cfg : Nat),
        dualVectorStore_load (some disk) cfg = Except.ok disk.d :=
  ⟨rfl, rfl, fun _ _ => rfl⟩

/-- C3: with a filter active the requested candidate depth is
`k × 10` raised as a minimum over the cap `min(|eligible| × 2, ntotal,
500)` (the code applies the `max` after the `min`, so the `k × 10` floor
itself is not capped), and without a filter it is `k × 2`; moreover a
search at depth `d` always yields exactly `d` result slots. -/
theorem C3_search_depth :
    (∀ e n k : Nat,
        searchK (some e) n k = max (k * 10) (min (2 * e) (min n 500)))
    ∧ (∀ n k : Nat, searchK none n k = k * 2)
    ∧ (∀ (vecs : List (List ℚ)) (idMap : List Int) (q : List ℚ) (k : Nat),
        (searchSpace vecs idMap q k).length = k) := by
  refine ⟨fun e n k => ?_, fun n k => rfl, fun vecs idMap q k => ?_⟩
  · simp only [searchK]; omega
  · simp only [searchSpace, faissTop, List.length_map, List.length_append,
      List.length_take, List.length_replicate]
    omega

/-- C4: when the text space is non-empty and the nearest neighbour of
the candidate resolves to a real item id, `check_near_duplicates`
rejects exactly when the squared distance is strictly below `0.3` (a
distance equal to the threshold is accepted), reporting similarity
`1 - distance/10`; this holds for every value of the unused
`similarity_threshold` parameter. -/
theorem C4_near_duplicate_threshold :
    ∀ (encode : String → List ℚ) (store : DualVectorStore) (text : String)
      (thr d : ℚ) (i : Int) (rest : List (ℚ × Int)),
      store.textVecs.length ≠ 0 →
      searchSpace store.textVecs store.textIdMap (encode text) 1
        = (d, i) :: rest →
      i ≠ -1 →
      check_near_duplicates encode store text thr
        = if d < 3 / 10 then some (i, 1 - d / 10) else none := by
  intro encode store text thr d i rest hn hsearch hi
  simp only [check_near_duplicates, if_neg hn, hsearch, if_neg hi]

/-- Witness for C4 at a concrete store: one stored text vector `[0]`
mapped to item 7 and query encoding `[1/10]`, squared distance `1/100 <
3/10`, so the candidate is rejected with similarity `1 - (1/100)/10 =
999/1000`. -/
theorem C4_near_duplicate_threshold_witness :
    check_near_duplicates (fun _ => [1 / 10]) exampleStore "x" (95 / 100)
      = some (7, 999 / 1000) := by
  have h := C4_near_duplicate_threshold (fun _ => [1 / 10]) exampleStore "x"
    (95 / 100) (1 / 100) 7 [] (by decide)
    (by norm_num [searchSpace, faissTop, sortK, sqDist, exampleStore,
      List.insertionSort])
    (by decide)
  rw [h]
  norm_num

/-- C10: the accept/reject outcome and reported similarity of
`check_near_duplicates` are identical for any two values of its
`similarity_threshold` parameter, over every encoder, store state and
input text — the parameter (passed as `0.95` by `watch_clipboard`) is
never read; only the hard-coded `0.3` threshold and `10` divisor
matter. -/
theorem C10_threshold_parameter_unused :
    ∀ (encode : String → List ℚ) (store : DualVectorStore) (text : String)
      (t₁ t₂ : ℚ),
      check_near_duplicates encode store text t₁
        = check_near_duplicates encode store text t₂ :=
  fun _ _ _ _ _ => rfl

/-- C5: whenever a search call returns (rather than raising), its result
has at most `k` entries, is ordered ascending by distance, names each
item id at most once, and every returned entry is one of the surviving
pre-merge candidates carrying that id's lowest candidate distance —
established against the entire candidate list, not only its first `k`
elements. -/
theorem C5_merge_rank_dedup :
    ∀ (encodeText : String → List ℚ) (db : List Item)
      (store : DualVectorStore) (q : String) (k : Nat) (mode : String)
      (sf : Option String) (at_ : Option Int) (r : List (Item × ℚ)),
      semantic_search encodeText db store q k mode sf at_ = Except.ok r →
        r.length ≤ k
        ∧ r.Pairwise (fun a b => a.2 ≤ b.2)
        ∧ (r.map fun x => x.1.id).Nodup
        ∧ (∀ x ∈ r,
            ∀ c ∈ semantic_search_text_candidates encodeText db store q k
                mode sf at_,
              c.1.id = x.1.id → x.2 ≤ c.2.1)
        ∧ (∀ x ∈ r,
            ∃ c ∈ semantic_search_text_candidates encodeText db store q k
                mode sf at_,
              c.1 = x.1 ∧ c.2.1 = x.2) := by
  intro encodeText db store q k mode sf at_ r hok
  unfold semantic_search at hok
  split_ifs at hok
  · cases hok; simp
  · rcases mergeCandidates_props (semantic_search_text_candidates
      encodeText db store q k mode sf at_) k with ⟨h1, h2, h3, h4, h5⟩
    cases hok
    exact ⟨h1, h2, h3, h4, h5⟩

/-- Witness for C5: a search over three stored text vectors with `k = 2`
returns the two nearest distinct items, sorted ascending, and the
theorem's hypotheses hold at this concrete call. -/
theorem C5_merge_rank_dedup_witness :
    exampleResult.length ≤ 2
    ∧ exampleResult.Pairwise (fun a b => a.2 ≤ b.2)
    ∧ (exampleResult.map fun x => x.1.id).Nodup := by
  have h := C5_merge_rank_dedup (fun _ => [0]) exampleDb exampleStore2
    "q" 2 "text" none none exampleResult (by with_unfolding_all rfl)
  exact ⟨h.1, h.2.1, h.2.2.1⟩

/-- Counterexample for C6: the claim states the classifier returns Junk
only if (among the other rules) all characters of the text are the same
single character; but `is_junk` applies that rule to
`text.strip()`, so `"  a  "` (five characters, not all equal, containing
an alphanumeric, no boilerplate) is nevertheless classified Junk. -/
theorem C6_junk_counterexample :
    is_junk "  a  " = true ∧ isJunkSpecLiteral "  a  " = false :=
  ⟨by decide, by decide⟩

/-- C6 (amended): `is_junk` returns Junk iff the text is shorter than 5
characters, or only whitespace, or all characters of its
whitespace-stripped form are the same single character, or no character
is alphanumeric, or its lowercased form contains a configured
boilerplate substring; and the spec's example classifications hold. -/
theorem C6_junk_rules_amended :
    (∀ text : String, is_junk text = isJunkSpecAmended text)
    ∧ is_junk "aaaa" = true
    ∧ is_junk "   " = true
    ∧ is_junk "🙂🙂" = true
    ∧ is_junk "ok" = true
    ∧ is_junk "hello world" = false := by
  refine ⟨fun text => ?_, by decide, by decide, by decide, by decide,
    by decide⟩
  unfold is_junk isJunkSpecAmended
  split_ifs with h1 h2 h3 h4 h5 <;> simp_all

/-- C7: in the clipboard ingestion step, a junk text is rejected with
the state unchanged, for every hash function (no hash is consulted) and
every store; a non-junk text whose hash matches an existing row is
rejected as an exact duplicate of that row's id with the state
unchanged, for every encoder and vector store (the near-duplicate check
is skipped); and a text passing all three checks is inserted into the
record store and its vector appended to the text index under the new
id. -/
theorem C7_ingest_pipeline_order :
    ∀ (hash : String → String) (encode : String → List ℚ) (now : Int)
      (st : IngestState) (text : String),
      (is_junk text = true →
        watch_clipboard_step hash encode now st text
          = (DedupDecision.rejectJunk, st))
      ∧ (∀ eid : Int, is_junk text = false →
          check_exact_duplicate st.db (hash text) = some eid →
          watch_clipboard_step hash encode now st text
            = (DedupDecision.rejectExactDuplicate eid, st))
      ∧ (is_junk text = false →
          check_exact_duplicate st.db (hash text) = none →
          check_near_duplicates encode st.store text (95 / 100) = none →
          watch_clipboard_step hash encode now st text
            = (DedupDecision.accept st.nextId,
               { db := st.db ++
                   [{ id := st.nextId, text := text,
                      contentHash := hash text, source := "clipboard",
                      blobUri := none, createdTs := now }],
                 nextId := st.nextId + 1,
                 store := add_text_vector st.store st.nextId
                   (encode text) })) := by
  intro hash encode now st text
  refine ⟨fun hj => ?_, fun eid hj hdup => ?_, fun hj hdup hnear => ?_⟩
  · simp only [watch_clipboard_step, hj, if_true]
  · simp only [watch_clipboard_step, hj, Bool.false_eq_true, if_false,
      hdup]
  · simp only [watch_clipboard_step, hj, Bool.false_eq_true, if_false,
      hdup, hnear]

/-- Witness for C7: the three pipeline outcomes at concrete inputs —
`"hi!"` is junk and leaves the state untouched; `"hello world"` whose
hash collides with row 2 is rejected as an exact duplicate with the
state untouched; and `"hello world"` with a fresh hash and a distant
nearest neighbour is accepted as item 4, appended to the record store
and the text index. -/
theorem C7_ingest_pipeline_order_witness :
    watch_clipboard_step (fun _ => "h9") (fun _ => [1]) 999 exampleIngest
      "hi!" = (DedupDecision.rejectJunk, exampleIngest)
    ∧ watch_clipboard_step (fun _ => "h2") (fun _ => [1]) 999 exampleIngest
      "hello world" = (DedupDecision.rejectExactDuplicate 2, exampleIngest)
    ∧ watch_clipboard_step (fun _ => "h9") (fun _ => [1]) 999 exampleIngest
      "hello world"
      = (DedupDecision.accept 4,
         { db := exampleDb ++
             [{ id := 4, text := "hello world", contentHash := "h9",
                source := "clipboard", blobUri := none,
                createdTs := 999 }],
           nextId := 5,
           store := add_text_vector exampleStore 4 [1] }) := by
  refine ⟨(C7_ingest_pipeline_order (fun _ => "h9") (fun _ => [1]) 999
    exampleIngest "hi!").1 (by decide), ?_, ?_⟩
  · exact (C7_ingest_pipeline_order (fun _ => "h2") (fun _ => [1]) 999
      exampleIngest "hello world").2.1 2 (by decide) (by decide)
  · exact (C7_ingest_pipeline_order (fun _ => "h9") (fun _ => [1]) 999
      exampleIngest "hello world").2.2 (by decide) (by decide)
      (by norm_num [check_near_duplicates, searchSpace, faissTop, sortK,
        sqDist, exampleIngest, exampleStore, List.insertionSort])

/-- C8: when a timestamp or source filter is active, the eligible id set
is resolved from the record store (rows with `created_ts >=
after_timestamp` and matching source), and when it is empty the call
returns `[]` immediately — for every vector-store state, so no index is
consulted; and over rows created at 100, 200, 300 with
`after_timestamp = 150` exactly the items with ids 2 and 3 are
eligible. -/
theorem C8_filter_resolution_first :
    (∀ (encodeText : String → List ℚ) (db : List Item)
       (store : DualVectorStore) (q : String) (k : Nat) (mode : String)
       (sf : Option String) (at_ : Option Int),
       (at_.isSome || sf.isSome) = true →
       eligibleIds db sf at_ = [] →
       semantic_search encodeText db store q k mode sf at_ = Except.ok [])
    ∧ eligibleIds exampleDb none (some 150) = [2, 3] := by
  refine ⟨fun encodeText db store q k mode sf at_ hf he => ?_, by decide⟩
  have hv : semantic_search_valid_ids db sf at_ = some [] := by
    simp [semantic_search_valid_ids, hf, he]
  simp [semantic_search, hv]

/-- Witness for C8: with `after_timestamp = 1000` every row of the
three-row example store is filtered out, the filter is active, and the
search returns `[]` for a store that does hold a text vector. -/
theorem C8_filter_resolution_first_witness :
    ((some 1000 : Option Int).isSome
      || (none : Option String).isSome) = true
    ∧ eligibleIds exampleDb none (some 1000) = []
    ∧ semantic_search (fun _ => [0]) exampleDb exampleStore "q" 5 "text"
        none (some 1000) = Except.ok [] :=
  ⟨rfl, by decide,
    (C8_filter_resolution_first).1 (fun _ => [0]) exampleDb exampleStore
      "q" 5 "text" none (some 1000) rfl (by decide)⟩

/-- C9: a requested modality whose vector space is empty contributes
zero candidates without raising: with an empty text space, `mode =
"text"` returns `[]`; with an empty image space a `mode = "all"` search
returns exactly the text-only result, and a `mode = "images"` search
returns `[]` — no error in any case. -/
theorem C9_empty_space_zero_candidates :
    (∀ (encodeText : String → List ℚ) (db : List Item)
       (store : DualVectorStore) (q : String) (k : Nat)
       (sf : Option String) (at_ : Option Int),
       store.textVecs = [] →
       semantic_search encodeText db store q k "text" sf at_
         = Except.ok [])
    ∧ (∀ (encodeText : String → List ℚ) (db : List Item)
        (store : DualVectorStore) (q : String) (k : Nat)
        (sf : Option String) (at_ : Option Int),
        store.imageVecs = [] →
        semantic_search encodeText db store q k "all" sf at_
          = semantic_search encodeText db store q k "text" sf at_)
    ∧ (∀ (encodeText : String → List ℚ) (db : List Item)
        (store : DualVectorStore) (q : String) (k : Nat)
        (sf : Option String) (at_ : Option Int),
        store.imageVecs = [] →
        semantic_search encodeText db store q k "images" sf at_
          = Except.ok []) := by
  refine ⟨fun encodeText db store q k sf at_ h => ?_,
    fun encodeText db store q k sf at_ h => ?_,
    fun encodeText db store q k sf at_ h => ?_⟩
  · unfold semantic_search
    split_ifs with h1 h2
    · rfl
    · rw [show (("text" == "all" || "text" == "images")) = false from rfl]
        at h2
      simp at h2
    · simp [semantic_search_text_candidates, h, mergeCandidates,
        dedupBySeen, sortK, List.insertionSort]
  · unfold semantic_search
    simp only [h, List.length_nil, gt_iff_lt, lt_self_iff_false,
      decide_False, Bool.and_false, Bool.false_eq_true, if_false]
    rfl
  · unfold semantic_search
    simp only [h, List.length_nil, gt_iff_lt, lt_self_iff_false,
      decide_False, Bool.and_false, Bool.false_eq_true, if_false]
    split_ifs with h1
    · rfl
    · simp [semantic_search_text_candidates, mergeCandidates,
        dedupBySeen, sortK, List.insertionSort]

/-- Witness for C9: a completely empty store yields `Except.ok []` in
mode `"text"`, identical results for modes `"all"` and `"text"` over a
store with one text vector and no image vectors, and `Except.ok []` in
mode `"images"` over that same store. -/
theorem C9_empty_space_zero_candidates_witness :
    semantic_search (fun _ => [0]) exampleDb
      { textVecs := [], textIdMap := [], imageVecs := [], imageIdMap := [] }
      "q" 3 "text" none none = Except.ok []
    ∧ semantic_search (fun _ => [0]) exampleDb exampleStore "q" 3 "all"
        none none
      = semantic_search (fun _ => [0]) exampleDb exampleStore "q" 3 "text"
        none none
    ∧ semantic_search (fun _ => [0]) exampleDb exampleStore "q" 3 "images"
        none none = Except.ok [] :=
  ⟨C9_empty_space_zero_candidates.1 (fun _ => [0]) exampleDb _ "q" 3
      none none rfl,
   C9_empty_space_zero_candidates.2.1 (fun _ => [0]) exampleDb
      exampleStore "q" 3 none none rfl,
   C9_empty_space_zero_candidates.2.2 (fun _ => [0]) exampleDb
      exampleStore "q" 3 none none rfl⟩

end ClipMind
